import Mathlib

/-!
Shallow embedding of `prosail.py`, the single source file of the
AvoplotProSAIL plugin.  Numeric values are modelled as exact rationals,
the external simulation function `pyprosail.run` is an abstract parameter
`run : List PyProsailArg → Except PyErr Table`, Python exceptions are the
`Except` error path, and the series mutations performed by the handler are
recorded as an explicit event trace.
-/

/-- A `numpy` result table, row major: the output of `pyprosail.run`. -/
abbrev Table := List (List ℚ)

/-- Column extraction, modelling `res[:, j]`. -/
def col (t : Table) (j : Nat) : List ℚ :=
  t.map (fun row => row.getD j 0)

/-- The leaf-angle-distribution selectors exported by the external
`pyprosail` library; the plugin only ever uses `Planophile`. -/
inductive LeafAngleDist
  | Planophile
  | Plagiophile
  | Erectophile
  | Spherical
  | Uniform
deriving DecidableEq, Repr

/-- One positional argument of a `pyprosail.run` call: either a numeric
scalar or a categorical leaf-angle-distribution selector. -/
inductive PyProsailArg
  | num (q : ℚ)
  | dist (d : LeafAngleDist)
deriving DecidableEq, Repr

/-- Python exceptions relevant to the plugin: attribute lookup failure,
dictionary key lookup failure, and any exception raised by external code. -/
inductive PyErr
  | attributeError
  | keyError
  | exc (msg : String)
deriving DecidableEq, Repr

/-- The x/y data held by a series adapter (`series.XYDataSeries` state). -/
structure SeriesState where
  xdata : List ℚ
  ydata : List ℚ
deriving DecidableEq, Repr

/-- Observable series mutations performed by `update_plot`, in order. -/
inductive SeriesEvent
  | set_xy_data (x y : List ℚ)
  | update
deriving DecidableEq, Repr

/-- The event handlers that occur in the module; every slider is bound to
`ProSAILControl.update_plot`. -/
inductive Handler
  | update_plot
deriving DecidableEq, Repr

/-- A `FloatSpin` widget as configured by `add_slider`: bounds, increment,
current value (initialised to the default), plus its caption label and the
change-event handler registered for it. -/
structure Slider where
  caption : String
  value : ℚ
  min_val : ℚ
  max_val : ℚ
  increment : ℚ
  handler : Handler
deriving DecidableEq, Repr

/-- The state of a `ProSAILControl` control panel.  `sliders` is `none`
before `setup` has run, because `__init__` never creates the attribute;
`setup` assigns the (insertion-ordered) dictionary. -/
structure ProSAILControl where
  series : SeriesState
  sliders : Option (List (String × Slider))
deriving DecidableEq, Repr

/-- `ProSAILControl.__init__`: stores the associated series, creates no
`sliders` attribute. -/
def ProSAILControl.init (series : SeriesState) : ProSAILControl :=
  { series := series, sliders := none }

/-- Insertion-ordered dictionary assignment, `self.sliders[name] = ref`. -/
def slidersSet (m : List (String × Slider)) (k : String) (v : Slider) :
    List (String × Slider) :=
  if m.any (fun p => p.1 == k) then
    m.map (fun p => if p.1 == k then (k, v) else p)
  else
    m ++ [(k, v)]

/-- Dictionary lookup `self.sliders[name]`, `none` when the key is absent. -/
def slidersFind (m : List (String × Slider)) (k : String) : Option Slider :=
  (m.find? (fun p => p.1 == k)).map (fun p => p.2)

/-- `ProSAILControl.add_slider`: builds a `FloatSpin` with the given
bounds, increment and default value, stores it under `name` in
`self.sliders` (raising `AttributeError` when the attribute does not yet
exist), and registers `handler` for its change events. -/
def ProSAILControl.add_slider (c : ProSAILControl) (name caption : String)
    (defaultval minval maxval inc : ℚ) (handler : Handler) :
    Except PyErr ProSAILControl :=
  match c.sliders with
  | none => .error .attributeError
  | some m =>
      let slider_ref : Slider :=
        { caption := caption, value := defaultval, min_val := minval,
          max_val := maxval, increment := inc, handler := handler }
      .ok { c with sliders := some (slidersSet m name slider_ref) }

/-- `ProSAILControl.setup`: assigns `self.sliders = {}` and adds the four
sliders with the defaults, bounds and steps hardcoded in the source, all
bound to `self.update_plot`. -/
def ProSAILControl.setup (c : ProSAILControl) : Except PyErr ProSAILControl := do
  let c1 := { c with sliders := some [] }
  let c2 ← c1.add_slider "EWT" "Equivalent Water Thickness (cm)"
    0.1 0 1 0.01 .update_plot
  let c3 ← c2.add_slider "Chloro" "Chlorophyll content (ug per cm^2)"
    40 0 100 1 .update_plot
  let c4 ← c3.add_slider "Carot" "Carotenoid content (ug per cm^2)"
    8 0 100 1 .update_plot
  c4.add_slider "N" "Structure Coefficient" 1.5 0 3 0.1 .update_plot

/-- `self.sliders[name].GetValue()`: `AttributeError` before `setup`,
`KeyError` for an absent key, otherwise the widget's current value. -/
def ProSAILControl.getSliderValue (c : ProSAILControl) (name : String) :
    Except PyErr ℚ :=
  match c.sliders with
  | none => .error .attributeError
  | some m =>
      match slidersFind m name with
      | none => .error .keyError
      | some s => .ok s.value

/-- The positional argument list of the `pyprosail.run` call in
`update_plot`:
`pyprosail.run(N, chloro, carot, 0, ewt, 0.009, 1, 3, 0.01, 30, 0, 10, 0,
pyprosail.Planophile)`. -/
def update_plot_args (N chloro carot ewt : ℚ) : List PyProsailArg :=
  [.num N, .num chloro, .num carot, .num 0, .num ewt, .num 0.009, .num 1,
   .num 3, .num 0.01, .num 30, .num 0, .num 10, .num 0, .dist .Planophile]

/-- `ProSAILControl.update_plot`: reads the four current slider values
(in source order EWT, Chloro, Carot, N), calls the external simulation,
then replaces the series data with columns 0 and 1 of the result and
triggers a redraw.  The returned trace records the series mutations that
were reached; an exception anywhere aborts the rest of the handler. -/
def ProSAILControl.update_plot (run : List PyProsailArg → Except PyErr Table)
    (c : ProSAILControl) : Except PyErr ProSAILControl × List SeriesEvent :=
  match c.getSliderValue "EWT" with
  | .error e => (.error e, [])
  | .ok ewt =>
    match c.getSliderValue "Chloro" with
    | .error e => (.error e, [])
    | .ok chloro =>
      match c.getSliderValue "Carot" with
      | .error e => (.error e, [])
      | .ok carot =>
        match c.getSliderValue "N" with
        | .error e => (.error e, [])
        | .ok N =>
          match run (update_plot_args N chloro carot ewt) with
          | .error e => (.error e, [])
          | .ok res =>
              (.ok { c with series :=
                       { xdata := col res 0, ydata := col res 1 } },
               [.set_xy_data (col res 0) (col res 1), .update])

/-- A `ProSAILSeries`: the base-class x/y data plus the control panels
added by its `__init__`. -/
structure ProSAILSeries where
  name : String
  data : SeriesState
  control_panels : List ProSAILControl
deriving DecidableEq, Repr

/-- `ProSAILSeries.__init__`: stores the x/y data and attaches a freshly
constructed `ProSAILControl` associated with this series. -/
def ProSAILSeries.init (name : String) (xdata ydata : List ℚ) : ProSAILSeries :=
  let d : SeriesState := { xdata := xdata, ydata := ydata }
  { name := name, data := d, control_panels := [ProSAILControl.init d] }

/-- A subplot, reduced to the list of data series added to it. -/
structure Subplot where
  series_list : List ProSAILSeries
deriving DecidableEq, Repr

/-- `subplot.add_data_series(...)`. -/
def Subplot.add_data_series (sp : Subplot) (s : ProSAILSeries) : Subplot :=
  { sp with series_list := sp.series_list ++ [s] }

/-- A `ProsailPlugin` instance as built by its `__init__`: the plugin name
passed to the base class and the menu entry set on it. -/
structure ProsailPlugin where
  name : String
  menu_path : List String
  menu_description : String
deriving DecidableEq, Repr

/-- `ProsailPlugin()`: `super().__init__("PyProSAIL", ProSAILSeries)` and
`set_menu_entry(['Optical RS','PyProSAIL'], "Plot outputs ...")`. -/
def ProsailPlugin.init : ProsailPlugin :=
  { name := "PyProSAIL",
    menu_path := ["Optical RS", "PyProSAIL"],
    menu_description :=
      "Plot outputs from the PyProSAIL vegetation reflectance model" }

/-- The positional argument list of the `pyprosail.run` call in
`plot_into_subplot`:
`pyprosail.run(1.5, 40, 8, 0, 0.1, 0.009, 1, 3, 0.01, 30, 0, 10, 0,
pyprosail.Planophile)`. -/
def plot_into_subplot_args : List PyProsailArg :=
  [.num 1.5, .num 40, .num 8, .num 0, .num 0.1, .num 0.009, .num 1,
   .num 3, .num 0.01, .num 30, .num 0, .num 10, .num 0, .dist .Planophile]

/-- `ProsailPlugin.plot_into_subplot`: runs the simulation with the
hardcoded default parameters, builds a `ProSAILSeries` from columns 0 and
1 of the result, adds it to the subplot and returns `True`. -/
def ProsailPlugin.plot_into_subplot
    (run : List PyProsailArg → Except PyErr Table) (subplot : Subplot) :
    Except PyErr (Subplot × Bool) :=
  match run plot_into_subplot_args with
  | .error e => .error e
  | .ok res =>
      let data_series :=
        ProSAILSeries.init "ProSAIL Output" (col res 0) (col res 1)
      .ok (subplot.add_data_series data_series, true)

/-- A Python process, reduced to the module cache (`sys.modules`) and the
AvoPlot plugin registry. -/
structure PyProcess where
  loaded_modules : List String
  registry : List ProsailPlugin
deriving DecidableEq, Repr

/-- Effect of evaluating the module body of `prosail.py` on the plugin
registry: the only registry call in the module is the single top-level
`plugins.register(ProsailPlugin())`. -/
def evalModuleBody (registry : List ProsailPlugin) : List ProsailPlugin :=
  registry ++ [ProsailPlugin.init]

/-- `import prosail` under Python module-cache semantics: the module body
is evaluated only if the module is not already loaded. -/
def importProsailModule (p : PyProcess) : PyProcess :=
  if "prosail" ∈ p.loaded_modules then p
  else
    { loaded_modules := p.loaded_modules ++ ["prosail"],
      registry := evalModuleBody p.registry }

/-- Position `j` of the `update_plot` call is fixed: its value does not
depend on the slider readings (tested on two argument tuples that differ
in every variable position). -/
def argIsFixed (j : Nat) : Bool :=
  decide ((update_plot_args 1 2 3 4).getD j (.num 0)
            = (update_plot_args 5 6 7 8).getD j (.num 0))

/-- Number of fixed positions among the 14 arguments of the
`pyprosail.run` call in `update_plot`. -/
def numFixedArgs : Nat :=
  ((List.range 14).filter argIsFixed).length

/-- The control-panel state produced by `setup` on a freshly initialised
control associated with series data `s`. -/
def setupControl (s : SeriesState) : ProSAILControl :=
  { series := s,
    sliders := some
      [("EWT", { caption := "Equivalent Water Thickness (cm)", value := 0.1,
                 min_val := 0, max_val := 1, increment := 0.01,
                 handler := .update_plot }),
       ("Chloro", { caption := "Chlorophyll content (ug per cm^2)", value := 40,
                    min_val := 0, max_val := 100, increment := 1,
                    handler := .update_plot }),
       ("Carot", { caption := "Carotenoid content (ug per cm^2)", value := 8,
                   min_val := 0, max_val := 100, increment := 1,
                   handler := .update_plot }),
       ("N", { caption := "Structure Coefficient", value := 1.5,
               min_val := 0, max_val := 3, increment := 0.1,
               handler := .update_plot })] }

/-- Sample series data used to instantiate the theorems below. -/
def sampleSeries : SeriesState :=
  { xdata := [], ydata := [] }

/-- The control panel obtained by running `setup` on a control associated
with `sampleSeries`. -/
def sampleControl : ProSAILControl :=
  setupControl sampleSeries

/-- A control with the same sliders as `sampleControl` but different
series data. -/
def sampleControl2 : ProSAILControl :=
  { sampleControl with series := { xdata := [1], ydata := [2] } }

/-- An empty subplot. -/
def sampleSubplot : Subplot :=
  { series_list := [] }

/-- A pure sample simulation returning a small two-column table. -/
def sampleRun : List PyProsailArg → Except PyErr Table :=
  fun _ => .ok [[400, 0.05], [401, 0.06]]

/-- A simulation that always raises. -/
def failRun : List PyProsailArg → Except PyErr Table :=
  fun _ => .error (.exc "pyprosail failure")

/-- Claim C1: on a widget change event handled by `update_plot`, after the
handler returns the series data equals exactly columns 0 and 1 of the
table returned by the simulation call made during the handler, the new
data fully replacing any prior data, and the redraw (`series.update`) is
triggered after the data is written. -/
theorem update_plot_writes_exact_columns
    (run : List PyProsailArg → Except PyErr Table) (c : ProSAILControl)
    (ewt chloro carot n : ℚ) (t : Table)
    (hE : c.getSliderValue "EWT" = .ok ewt)
    (hC : c.getSliderValue "Chloro" = .ok chloro)
    (hCa : c.getSliderValue "Carot" = .ok carot)
    (hN : c.getSliderValue "N" = .ok n)
    (hrun : run (update_plot_args n chloro carot ewt) = .ok t) :
    c.update_plot run =
      (.ok { c with series := { xdata := col t 0, ydata := col t 1 } },
       [.set_xy_data (col t 0) (col t 1), .update]) := by
  simp only [ProSAILControl.update_plot, hE, hC, hCa, hN, hrun]

theorem update_plot_writes_exact_columns_witness :
    sampleControl.getSliderValue "EWT" = .ok 0.1 ∧
    sampleRun (update_plot_args 1.5 40 8 0.1) = .ok [[400, 0.05], [401, 0.06]] ∧
    sampleControl.update_plot sampleRun =
      (.ok { sampleControl with series :=
               { xdata := col [[400, 0.05], [401, 0.06]] 0,
                 ydata := col [[400, 0.05], [401, 0.06]] 1 } },
       [.set_xy_data (col [[400, 0.05], [401, 0.06]] 0)
          (col [[400, 0.05], [401, 0.06]] 1), .update]) :=
  ⟨rfl, rfl,
   update_plot_writes_exact_columns sampleRun sampleControl 0.1 40 8 1.5
     [[400, 0.05], [401, 0.06]] rfl rfl rfl rfl rfl⟩

/-- Claim C2, counterexample: the `pyprosail.run` call in `update_plot`
has 14 positional arguments of which exactly 10 (not eleven) are fixed
constants, so "those four values plus eleven fixed constants" is false. -/
theorem update_plot_not_eleven_fixed_constants :
    (update_plot_args 1.5 40 8 0.1).length = 14 ∧
    numFixedArgs = 10 ∧ numFixedArgs ≠ 11 := by
  refine ⟨rfl, ?_, ?_⟩ <;>
    norm_num [numFixedArgs, argIsFixed, update_plot_args, List.range_succ]

/-- Claim C2, amended: on every widget change event `update_plot` reads
the four current slider values and calls the simulation function
positionally with those four values plus ten fixed constants, the call
having 14 positional parameters in total (4 variable, 10 fixed constants
of which 1 is the categorical leaf-angle-distribution selector
`pyprosail.Planophile`, in the last position). -/
theorem update_plot_call_fourteen_args_ten_fixed
    (run : List PyProsailArg → Except PyErr Table) (c : ProSAILControl)
    (ewt chloro carot n : ℚ)
    (hE : c.getSliderValue "EWT" = .ok ewt)
    (hC : c.getSliderValue "Chloro" = .ok chloro)
    (hCa : c.getSliderValue "Carot" = .ok carot)
    (hN : c.getSliderValue "N" = .ok n) :
    c.update_plot run =
      (match run (update_plot_args n chloro carot ewt) with
       | .error e => (.error e, [])
       | .ok res =>
           (.ok { c with series := { xdata := col res 0, ydata := col res 1 } },
            [.set_xy_data (col res 0) (col res 1), .update])) ∧
    update_plot_args n chloro carot ewt =
      [.num n, .num chloro, .num carot, .num 0, .num ewt, .num 0.009, .num 1,
       .num 3, .num 0.01, .num 30, .num 0, .num 10, .num 0,
       .dist .Planophile] ∧
    (update_plot_args n chloro carot ewt).length = 14 ∧
    numFixedArgs = 10 ∧
    (∀ j, j < 14 → argIsFixed j = true →
       ∀ n2 ch2 ca2 e2 : ℚ,
         (update_plot_args n chloro carot ewt).getD j (.num 0)
           = (update_plot_args n2 ch2 ca2 e2).getD j (.num 0)) ∧
    (update_plot_args n chloro carot ewt).getD 13 (.num 0) =
      .dist .Planophile := by
  refine ⟨?_, rfl, rfl, ?_, ?_, rfl⟩
  · simp only [ProSAILControl.update_plot, hE, hC, hCa, hN]
  · norm_num [numFixedArgs, argIsFixed, update_plot_args, List.range_succ]
  · intro j hj hfix n2 ch2 ca2 e2
    interval_cases j <;>
      first
        | rfl
        | (exfalso
           norm_num [argIsFixed, update_plot_args] at hfix)

theorem update_plot_call_fourteen_args_ten_fixed_witness :
    sampleControl.getSliderValue "N" = .ok 1.5 ∧ numFixedArgs = 10 :=
  ⟨rfl,
   (update_plot_call_fourteen_args_ten_fixed sampleRun sampleControl
       0.1 40 8 1.5 rfl rfl rfl rfl).2.2.2.1⟩

/-- Claim C3: the argument tuple of the simulation call in
`plot_into_subplot` is exactly the tuple `update_plot` would pass when
every slider holds its default value — the variable parameters are
N = 1.5, Chloro = 40, Carot = 8, EWT = 0.1, and the fixed constants are
identical in value and position in both calls. -/
theorem default_plugin_call_matches_update_plot_defaults
    (s : SeriesState) (c : ProSAILControl)
    (hsetup : (ProSAILControl.init s).setup = .ok c)
    (n chloro carot ewt : ℚ)
    (hN : c.getSliderValue "N" = .ok n)
    (hC : c.getSliderValue "Chloro" = .ok chloro)
    (hCa : c.getSliderValue "Carot" = .ok carot)
    (hE : c.getSliderValue "EWT" = .ok ewt) :
    n = 1.5 ∧ chloro = 40 ∧ carot = 8 ∧ ewt = 0.1 ∧
    plot_into_subplot_args = update_plot_args n chloro carot ewt := by
  have hc : c = setupControl s :=
    (Except.ok.inj (show Except.ok (setupControl s) = .ok c from hsetup)).symm
  subst hc
  have h1 : (1.5 : ℚ) = n :=
    Except.ok.inj (show Except.ok (1.5 : ℚ) = .ok n from hN)
  have h2 : (40 : ℚ) = chloro :=
    Except.ok.inj (show Except.ok (40 : ℚ) = .ok chloro from hC)
  have h3 : (8 : ℚ) = carot :=
    Except.ok.inj (show Except.ok (8 : ℚ) = .ok carot from hCa)
  have h4 : (0.1 : ℚ) = ewt :=
    Except.ok.inj (show Except.ok (0.1 : ℚ) = .ok ewt from hE)
  subst h1; subst h2; subst h3; subst h4
  exact ⟨rfl, rfl, rfl, rfl, rfl⟩

theorem default_plugin_call_matches_update_plot_defaults_witness :
    (ProSAILControl.init sampleSeries).setup = .ok sampleControl ∧
    plot_into_subplot_args = update_plot_args 1.5 40 8 0.1 :=
  ⟨rfl,
   (default_plugin_call_matches_update_plot_defaults sampleSeries
       sampleControl rfl 1.5 40 8 0.1 rfl rfl rfl rfl).2.2.2.2⟩

/-- Claim C4: `setup` constructs exactly four bounded numeric input
widgets, keyed EWT, Chloro, Carot, N, with (default, min, max, step)
equal to (0.1, 0, 1, 0.01), (40, 0, 100, 1), (8, 0, 100, 1) and
(1.5, 0, 3, 0.1) respectively, each bound to the handler `update_plot`. -/
theorem setup_builds_four_sliders (s : SeriesState) :
    (ProSAILControl.init s).setup = .ok
      { series := s,
        sliders := some
          [("EWT", { caption := "Equivalent Water Thickness (cm)",
                     value := 0.1, min_val := 0, max_val := 1,
                     increment := 0.01, handler := .update_plot }),
           ("Chloro", { caption := "Chlorophyll content (ug per cm^2)",
                        value := 40, min_val := 0, max_val := 100,
                        increment := 1, handler := .update_plot }),
           ("Carot", { caption := "Carotenoid content (ug per cm^2)",
                       value := 8, min_val := 0, max_val := 100,
                       increment := 1, handler := .update_plot }),
           ("N", { caption := "Structure Coefficient",
                   value := 1.5, min_val := 0, max_val := 3,
                   increment := 0.1, handler := .update_plot })] } := rfl

/-- Claim C5: whenever `plot_into_subplot` returns normally, the flag it
returns is `True`; no code path in it returns `False` or anything else. -/
theorem plot_into_subplot_returns_true
    (run : List PyProsailArg → Except PyErr Table)
    (sp sp2 : Subplot) (b : Bool)
    (h : ProsailPlugin.plot_into_subplot run sp = .ok (sp2, b)) :
    b = true := by
  unfold ProsailPlugin.plot_into_subplot at h
  rcases hr : run plot_into_subplot_args with e | res
  · rw [hr] at h
    cases h
  · rw [hr] at h
    simp only [Except.ok.injEq, Prod.mk.injEq] at h
    exact h.2.symm

theorem plot_into_subplot_returns_true_witness :
    ProsailPlugin.plot_into_subplot sampleRun sampleSubplot =
      .ok ({ series_list :=
               [ProSAILSeries.init "ProSAIL Output" [400, 401] [0.05, 0.06]] },
           true) ∧
    true = true :=
  ⟨rfl,
   plot_into_subplot_returns_true sampleRun sampleSubplot
     { series_list :=
         [ProSAILSeries.init "ProSAIL Output" [400, 401] [0.05, 0.06]] }
     true rfl⟩

/-- Claim C6: if the external simulation call raises during
`update_plot`, the exception propagates out of the handler unhandled — no
retry, no validation, no substituted error value: the handler's outcome
is exactly the exception the simulation raised. -/
theorem update_plot_propagates_run_exception
    (run : List PyProsailArg → Except PyErr Table) (c : ProSAILControl)
    (ewt chloro carot n : ℚ) (err : PyErr)
    (hE : c.getSliderValue "EWT" = .ok ewt)
    (hC : c.getSliderValue "Chloro" = .ok chloro)
    (hCa : c.getSliderValue "Carot" = .ok carot)
    (hN : c.getSliderValue "N" = .ok n)
    (hrun : run (update_plot_args n chloro carot ewt) = .error err) :
    (c.update_plot run).1 = .error err := by
  simp only [ProSAILControl.update_plot, hE, hC, hCa, hN, hrun]

theorem update_plot_propagates_run_exception_witness :
    failRun (update_plot_args 1.5 40 8 0.1) = .error (.exc "pyprosail failure") ∧
    (sampleControl.update_plot failRun).1 = .error (.exc "pyprosail failure") :=
  ⟨rfl,
   update_plot_propagates_run_exception failRun sampleControl 0.1 40 8 1.5
     (.exc "pyprosail failure") rfl rfl rfl rfl rfl⟩

/-- Claim C7: the recompute is deterministic — with the simulation
modelled as a pure function, two handler runs on controls whose sliders
report identical values produce identical event traces (hence identical
written x/y data) and identical resulting series states. -/
theorem update_plot_deterministic
    (run : List PyProsailArg → Except PyErr Table)
    (c1 c2 : ProSAILControl)
    (h : ∀ name : String, c1.getSliderValue name = c2.getSliderValue name) :
    (c1.update_plot run).2 = (c2.update_plot run).2 ∧
    Except.map ProSAILControl.series (c1.update_plot run).1
      = Except.map ProSAILControl.series (c2.update_plot run).1 := by
  unfold ProSAILControl.update_plot
  rw [h "EWT", h "Chloro", h "Carot", h "N"]
  rcases hE : c2.getSliderValue "EWT" with e | ewt
  · simp [hE]
  · rcases hC : c2.getSliderValue "Chloro" with e | chloro
    · simp [hE, hC]
    · rcases hCa : c2.getSliderValue "Carot" with e | carot
      · simp [hE, hC, hCa]
      · rcases hN : c2.getSliderValue "N" with e | n
        · simp [hE, hC, hCa, hN]
        · rcases hr : run (update_plot_args n chloro carot ewt) with e | t
          · simp [hE, hC, hCa, hN, hr]
          · simp [hE, hC, hCa, hN, hr, Except.map]

theorem update_plot_deterministic_witness :
    (sampleControl.update_plot sampleRun).2
      = (sampleControl2.update_plot sampleRun).2 ∧
    Except.map ProSAILControl.series (sampleControl.update_plot sampleRun).1
      = Except.map ProSAILControl.series
          (sampleControl2.update_plot sampleRun).1 :=
  update_plot_deterministic sampleRun sampleControl sampleControl2
    (fun _ => rfl)

/-- Claim C8: evaluating the module body registers exactly one freshly
constructed `ProsailPlugin` with the plugin registry, it is the only
registration the module performs, and under the module-cache semantics of
`import` a repeated import does not register the plugin a second time. -/
theorem module_registers_exactly_once
    (p : PyProcess) (h : "prosail" ∉ p.loaded_modules) :
    evalModuleBody p.registry = p.registry ++ [ProsailPlugin.init] ∧
    (importProsailModule p).registry = p.registry ++ [ProsailPlugin.init] ∧
    importProsailModule (importProsailModule p) = importProsailModule p := by
  have h1 : importProsailModule p =
      { loaded_modules := p.loaded_modules ++ ["prosail"],
        registry := p.registry ++ [ProsailPlugin.init] } := by
    unfold importProsailModule evalModuleBody
    rw [if_neg h]
  refine ⟨rfl, by rw [h1], ?_⟩
  conv_lhs => rw [h1]
  unfold importProsailModule
  rw [if_pos (by simp), if_neg h]
  rfl

theorem module_registers_exactly_once_witness :
    evalModuleBody ({ loaded_modules := [], registry := [] } : PyProcess).registry
      = ({ loaded_modules := [], registry := [] } : PyProcess).registry
          ++ [ProsailPlugin.init] ∧
    (importProsailModule { loaded_modules := [], registry := [] }).registry
      = ({ loaded_modules := [], registry := [] } : PyProcess).registry
          ++ [ProsailPlugin.init] ∧
    importProsailModule
        (importProsailModule { loaded_modules := [], registry := [] })
      = importProsailModule { loaded_modules := [], registry := [] } :=
  module_registers_exactly_once { loaded_modules := [], registry := [] }
    (by simp)

/-- Claim C9: atomicity on simulation failure — the slider reads and the
simulation call happen strictly before any series mutation, so when the
simulation raises, the handler terminates with that exception, the event
trace is empty (`set_xy_data` and `update` are never reached) and the
series data is exactly as it was before the event. -/
theorem update_plot_atomic_on_run_exception
    (run : List PyProsailArg → Except PyErr Table) (c : ProSAILControl)
    (ewt chloro carot n : ℚ) (err : PyErr)
    (hE : c.getSliderValue "EWT" = .ok ewt)
    (hC : c.getSliderValue "Chloro" = .ok chloro)
    (hCa : c.getSliderValue "Carot" = .ok carot)
    (hN : c.getSliderValue "N" = .ok n)
    (hrun : run (update_plot_args n chloro carot ewt) = .error err) :
    c.update_plot run = (.error err, []) := by
  simp only [ProSAILControl.update_plot, hE, hC, hCa, hN, hrun]

theorem update_plot_atomic_on_run_exception_witness :
    failRun (update_plot_args 1.5 40 8 0.1) = .error (.exc "pyprosail failure") ∧
    sampleControl.update_plot failRun = (.error (.exc "pyprosail failure"), []) :=
  ⟨rfl,
   update_plot_atomic_on_run_exception failRun sampleControl 0.1 40 8 1.5
     (.exc "pyprosail failure") rfl rfl rfl rfl rfl⟩

/-- Claim C10: the sliders mapping exists only after `setup`: `__init__`
leaves the attribute absent, so `update_plot` and `add_slider` both fail
with an attribute lookup error before `setup`; once `setup` has
completed, the lookups of EWT, Chloro, Carot and N all succeed. -/
theorem sliders_exist_only_after_setup
    (s : SeriesState) (run : List PyProsailArg → Except PyErr Table)
    (c : ProSAILControl)
    (hsetup : (ProSAILControl.init s).setup = .ok c) :
    (ProSAILControl.init s).sliders = none ∧
    (ProSAILControl.init s).update_plot run = (.error .attributeError, []) ∧
    (ProSAILControl.init s).add_slider "EWT" "Equivalent Water Thickness (cm)"
        0.1 0 1 0.01 .update_plot = .error .attributeError ∧
    c.getSliderValue "EWT" = .ok 0.1 ∧ c.getSliderValue "Chloro" = .ok 40 ∧
    c.getSliderValue "Carot" = .ok 8 ∧ c.getSliderValue "N" = .ok 1.5 := by
  have hc : c = setupControl s :=
    (Except.ok.inj (show Except.ok (setupControl s) = .ok c from hsetup)).symm
  subst hc
  exact ⟨rfl, rfl, rfl, rfl, rfl, rfl, rfl⟩

theorem sliders_exist_only_after_setup_witness :
    (ProSAILControl.init sampleSeries).sliders = none ∧
    (ProSAILControl.init sampleSeries).update_plot sampleRun
      = (.error .attributeError, []) ∧
    (ProSAILControl.init sampleSeries).add_slider "EWT"
        "Equivalent Water Thickness (cm)" 0.1 0 1 0.01 .update_plot
      = .error .attributeError ∧
    sampleControl.getSliderValue "EWT" = .ok 0.1 ∧
    sampleControl.getSliderValue "Chloro" = .ok 40 ∧
    sampleControl.getSliderValue "Carot" = .ok 8 ∧
    sampleControl.getSliderValue "N" = .ok 1.5 :=
  sliders_exist_only_after_setup sampleSeries sampleRun sampleControl rfl
